import Mathlib

/-!
Shallow embedding of the statistical core of the Stock-Forecast-App repository
(src/Modules/stationarity.py and src/Modules/forecast.py).

Floating-point observations are modelled as rationals (ℚ).  A pandas series is
a list of optional rationals (`none` models a missing value / NaN), and
`dropna` removes the missing entries.  The external statsmodels routines
(`adfuller`, `acf`, `pacf`, ARIMA fit / forecast) and the matplotlib PNG
renderer are parameters of the embedding (`Oracles`): the repository calls
them but does not define them.  A Python call that may raise is modelled as a
function into `Except String`; a caught exception message is the `.error`
payload.
-/

set_option autoImplicit false

/-- A pandas series: ordered observations, `none` is a missing value (NaN). -/
abbrev Series := List (Option ℚ)

/-- pandas `series.dropna()`: drop missing values, keep order. -/
def dropna : Series → List ℚ
  | [] => []
  | none :: s => dropna s
  | some x :: s => x :: dropna s

/-- Mean of a list of rationals (pandas `mean`); 0 on the empty list
(division by zero in ℚ), which the code never relies on. -/
def listMean (xs : List ℚ) : ℚ := xs.sum / (xs.length : ℚ)

/-- Numerator of the sample variance: Σ (x - mean)².  pandas
`series.std()` is `sqrt (varNum / (n - 1))`, so `series.std() == 0` holds
exactly when `varNum = 0`; the embedding uses that equivalent test, which
keeps everything inside ℚ. -/
def varNum (xs : List ℚ) : ℚ := (xs.map (fun x => (x - listMean xs) ^ 2)).sum

/-- The degenerate-input guard `len(series_clean) < 2 or series_clean.std() == 0`
that recurs verbatim in `adf_test`, `get_arima_params` and `forecast_stock`. -/
def degenerate (xs : List ℚ) : Prop := xs.length < 2 ∨ varNum xs = 0

instance (xs : List ℚ) : Decidable (degenerate xs) := by
  unfold degenerate; infer_instance

/-- The fields of the tuple returned by `statsmodels adfuller` that the code
reads: `result[0]` (test statistic), `result[1]` (p-value), `result[4]`
(critical values, a dict from significance label to value). -/
structure AdfResult where
  stat : ℚ
  pvalue : ℚ
  critValues : List (String × ℚ)
deriving DecidableEq

/-- The external numerical routines the repository calls.  `adfuller`, `acf`
and `pacf` may raise (modelled as `Except`); `renderAcfPacf` stands for the
matplotlib figure with the ACF and PACF plots of a series saved as PNG bytes
into a `BytesIO` buffer; `arima` is the composition of `ARIMA(...).fit()` and
the fitted model: on success it yields the model's point-prediction function
(prediction for `h` steps past the end of the series at argument `h - 1`),
and any exception during fitting or forecasting is its `.error`. -/
structure Oracles where
  adfuller : List ℚ → Except String AdfResult
  acf : List ℚ → Nat → Except String (List ℚ)
  pacf : List ℚ → Nat → Except String (List ℚ)
  renderAcfPacf : List ℚ → List Nat
  arima : List ℚ → Nat × Nat × Nat → Except String (Nat → ℚ)

/-- Verdict carried in the "Stationary" field of `adf_test`'s result dict. -/
inductive Verdict where
  | cannotTest
  | isStationary
  | nonStationary
  | testError (msg : String)
deriving DecidableEq

/-- The dict returned by `adf_test`; `none` models the string "N/A". -/
structure StationarityResult where
  stock : String
  adfStatistic : Option ℚ
  pvalue : Option ℚ
  critValues : Option (List (String × ℚ))
  verdict : Verdict
deriving DecidableEq

/-- `adf_test(series, stock_name)` from src/Modules/stationarity.py. -/
def adf_test (o : Oracles) (series : Series) (stock_name : String) :
    StationarityResult :=
  if degenerate (dropna series) then
    { stock := stock_name, adfStatistic := none, pvalue := none,
      critValues := none, verdict := .cannotTest }
  else
    match o.adfuller (dropna series) with
    | .ok result =>
      { stock := stock_name, adfStatistic := some result.stat,
        pvalue := some result.pvalue, critValues := some result.critValues,
        verdict := if result.pvalue < 0.05 then .isStationary
                   else .nonStationary }
    | .error e =>
      { stock := stock_name, adfStatistic := none, pvalue := none,
        critValues := none, verdict := .testError e }

/-- pandas `series.diff().dropna()`: first-order differencing; the leading
NaN produced by `diff` is dropped. -/
def diffl (xs : List ℚ) : List ℚ := List.zipWith (fun a b => b - a) xs (xs.drop 1)

/-- The `while adfuller(temp_series)[1] > 0.05 and diff_count < 2` loop of
`get_arima_params`.  Python's `and` evaluates `adfuller` on every condition
check, including the final one, so the test runs even when `diff_count = 2`;
an exception from `adfuller` propagates (no `try` around the loop).  The
loop body runs at most twice, so fuel 3 covers every condition check when
starting from `diff_count = 0`. -/
def diffLoop (adf : List ℚ → Except String AdfResult) :
    Nat → List ℚ → Nat → Except String (List ℚ × Nat)
  | 0, temp_series, diff_count => .ok (temp_series, diff_count)
  | fuel + 1, temp_series, diff_count =>
    match adf temp_series with
    | .error e => .error e
    | .ok r =>
      if 0.05 < r.pvalue ∧ diff_count < 2 then
        diffLoop adf fuel (diffl temp_series) (diff_count + 1)
      else
        .ok (temp_series, diff_count)

/-- Python `abs`. -/
def pyabs (x : ℚ) : ℚ := if x < 0 then -x else x

/-- Python `next((i for i in range(len(xs)) if abs(xs[i]) > thr), default)`
without the default: index of the first element of magnitude above `thr`,
else `none`. -/
def firstIdxOver (thr : ℚ) : List ℚ → Option Nat
  | [] => none
  | x :: xs => if thr < pyabs x then some 0 else (firstIdxOver thr xs).map (· + 1)

/-- The fourth component returned by `get_arima_params`: in the source it is
either `None` (degenerate branch) or `buf`, a `BytesIO` buffer holding the
rendered ACF/PACF figure as PNG bytes.  The `data` constructor does not occur
in the code; it exists to state the specification's alternative, in which the
proposal carries the ACF and PACF values themselves as numeric sequences. -/
inductive Curves where
  | absent
  | image (png : List Nat)
  | data (acfSeq pacfSeq : List ℚ)
deriving DecidableEq

/-- The tuple `p, diff_count, q, buf` returned by `get_arima_params`. -/
structure ArimaParams where
  p : Nat
  d : Nat
  q : Nat
  plot : Curves
deriving DecidableEq

/-- `get_arima_params(series)` from src/Modules/forecast.py.  Exceptions
raised by `adfuller`, `pacf` or `acf` are not caught and propagate to the
caller (`.error`). -/
def get_arima_params (o : Oracles) (series : Series) :
    Except String ArimaParams :=
  if degenerate (dropna series) then
    .ok { p := 1, d := 0, q := 1, plot := .absent }
  else
    match diffLoop o.adfuller 3 (dropna series) 0 with
    | .error e => .error e
    | .ok (temp_series, diff_count) =>
      match o.pacf temp_series 20, o.acf temp_series 20 with
      | .error e, _ => .error e
      | _, .error e => .error e
      | .ok pacf_all, .ok acf_all =>
        -- pacf(temp_series, nlags=20)[1:] / acf(temp_series, nlags=20)[1:]
        let pacf_values := pacf_all.drop 1
        let acf_values := acf_all.drop 1
        let p := (firstIdxOver 0.2 pacf_values).getD 1
        let q := (firstIdxOver 0.2 acf_values).getD 1
        .ok { p := min p 10, d := diff_count, q := min q 10,
              plot := .image (o.renderAcfPacf temp_series) }

/-- `forecast_stock(series, p, d, q)` from src/Modules/forecast.py.  The
degenerate guard raises (hard failure); `model.forecast(steps=7)` is the
first 7 values of the fitted model's point-prediction function; a fit or
forecast exception is logged and re-raised (`.error e`). -/
def forecast_stock (o : Oracles) (series : Series) (p d q : Nat) :
    Except String (List ℚ) :=
  if degenerate (dropna series) then
    .error "Cannot forecast: Constant or insufficient data"
  else
    match o.arima (dropna series) (p, d, q) with
    | .ok predict => .ok ((List.range 7).map predict)
    | .error e => .error e

/-- A 21-value correlation sequence of the shape statsmodels returns for
`nlags = 20`: lag 0 at 1, lag 1 at 3/10, the remaining lags at 1/10. -/
def corrSeq21 : List ℚ :=
  [1, 3/10, 1/10, 1/10, 1/10, 1/10, 1/10, 1/10, 1/10, 1/10, 1/10,
   1/10, 1/10, 1/10, 1/10, 1/10, 1/10, 1/10, 1/10, 1/10, 1/10]

/-- A concrete oracle assignment used to evaluate the embedding on concrete
inputs: the unit-root test always reports p-value 1/100, the correlation
sequences are `corrSeq21`, the renderer emits the PNG magic bytes, and the
fitted model predicts 100 + h. -/
def testOracles : Oracles where
  adfuller := fun _ => .ok { stat := -3, pvalue := 1/100,
                             critValues := [("5%", -29/10)] }
  acf := fun _ _ => .ok corrSeq21
  pacf := fun _ _ => .ok corrSeq21
  renderAcfPacf := fun _ => [137, 80, 78, 71]
  arima := fun _ _ => .ok (fun h => 100 + h)

/-- An oracle assignment on which every external numerical routine raises,
modelling statsmodels failures (e.g. adfuller's internal lag selection
running out of observations, a singular matrix during the ARIMA fit). -/
def failOracles : Oracles where
  adfuller := fun _ => .error "maxlag should be less than the sample size"
  acf := fun _ _ => .error "acf failed"
  pacf := fun _ _ => .error "pacf failed"
  renderAcfPacf := fun _ => []
  arima := fun _ _ => .error "LU decomposition error"

example : dropna [some 50, none, some 50] = [50, 50] := rfl
example : degenerate (dropna [some 50, some 50, some 50, some 50, some 50]) := by
  norm_num [degenerate, dropna, varNum, listMean]
example : ¬ degenerate [1, 2, 3] := by
  norm_num [degenerate, varNum, listMean]
example : diffl [1, 3, 6] = [2, 3] := by
  norm_num [diffl]
example : adf_test testOracles [some 50, some 50] "S" =
    { stock := "S", adfStatistic := none, pvalue := none, critValues := none,
      verdict := .cannotTest } := by
  norm_num [adf_test, degenerate, dropna, varNum, listMean]

/-- Claim C1: for every input series whose cleaned version has length < 2 or
zero standard deviation, `adf_test` returns the Cannot-Test result with all
numeric fields N/A without raising, `get_arima_params` returns the default
proposal (1, 0, 1) with no plot without raising, and `forecast_stock` raises
the degenerate-input error and returns no forecast. -/
theorem claim_C1 (o : Oracles) (series : Series) (stock_name : String)
    (p d q : Nat) (h : degenerate (dropna series)) :
    adf_test o series stock_name =
      { stock := stock_name, adfStatistic := none, pvalue := none,
        critValues := none, verdict := .cannotTest } ∧
    get_arima_params o series = .ok { p := 1, d := 0, q := 1, plot := .absent } ∧
    forecast_stock o series p d q =
      .error "Cannot forecast: Constant or insufficient data" := by
  refine ⟨?_, ?_, ?_⟩ <;>
    simp [adf_test, get_arima_params, forecast_stock, h]

/-- Witness for C1 at the constant series [50, 50, 50, 50, 50]. -/
theorem claim_C1_witness :
    adf_test testOracles [some 50, some 50, some 50, some 50, some 50] "R" =
      { stock := "R", adfStatistic := none, pvalue := none,
        critValues := none, verdict := .cannotTest } ∧
    get_arima_params testOracles [some 50, some 50, some 50, some 50, some 50] =
      .ok { p := 1, d := 0, q := 1, plot := .absent } ∧
    forecast_stock testOracles [some 50, some 50, some 50, some 50, some 50] 1 0 1 =
      .error "Cannot forecast: Constant or insufficient data" :=
  claim_C1 testOracles [some 50, some 50, some 50, some 50, some 50] "R" 1 0 1
    (by norm_num [degenerate, dropna, varNum, listMean])

/-- Claim C9: `adf_test` is deterministic — two calls on the identical series
and name give the identical result (same verdict, statistic, p-value, and
critical values). -/
theorem claim_C9 (o : Oracles) (s1 s2 : Series) (n1 n2 : String)
    (hs : s1 = s2) (hn : n1 = n2) :
    adf_test o s1 n1 = adf_test o s2 n2 ∧
    (adf_test o s1 n1).verdict = (adf_test o s2 n2).verdict ∧
    (adf_test o s1 n1).adfStatistic = (adf_test o s2 n2).adfStatistic ∧
    (adf_test o s1 n1).pvalue = (adf_test o s2 n2).pvalue ∧
    (adf_test o s1 n1).critValues = (adf_test o s2 n2).critValues := by
  subst hs; subst hn; exact ⟨rfl, rfl, rfl, rfl, rfl⟩

/-- Witness for C9 at a concrete series and name. -/
theorem claim_C9_witness :
    adf_test testOracles [some 1, some 2, some 3] "A" =
      adf_test testOracles [some 1, some 2, some 3] "A" ∧
    (adf_test testOracles [some 1, some 2, some 3] "A").verdict =
      (adf_test testOracles [some 1, some 2, some 3] "A").verdict ∧
    (adf_test testOracles [some 1, some 2, some 3] "A").adfStatistic =
      (adf_test testOracles [some 1, some 2, some 3] "A").adfStatistic ∧
    (adf_test testOracles [some 1, some 2, some 3] "A").pvalue =
      (adf_test testOracles [some 1, some 2, some 3] "A").pvalue ∧
    (adf_test testOracles [some 1, some 2, some 3] "A").critValues =
      (adf_test testOracles [some 1, some 2, some 3] "A").critValues :=
  claim_C9 testOracles [some 1, some 2, some 3] [some 1, some 2, some 3]
    "A" "A" rfl rfl

/-- Claim C4: on a non-degenerate series where the unit-root test succeeds,
the verdict is Stationary iff the p-value is strictly below 0.05 and
Non-Stationary otherwise, and the statistic, p-value and critical values are
populated from the test result. -/
theorem claim_C4 (o : Oracles) (series : Series) (stock_name : String)
    (r : AdfResult) (hnd : ¬ degenerate (dropna series))
    (h : o.adfuller (dropna series) = .ok r) :
    ((adf_test o series stock_name).verdict = .isStationary ↔
      r.pvalue < 0.05) ∧
    ((adf_test o series stock_name).verdict = .nonStationary ↔
      ¬ r.pvalue < 0.05) ∧
    (adf_test o series stock_name).adfStatistic = some r.stat ∧
    (adf_test o series stock_name).pvalue = some r.pvalue ∧
    (adf_test o series stock_name).critValues = some r.critValues := by
  by_cases hp : r.pvalue < 0.05 <;> simp [adf_test, hnd, h, hp]

/-- Witness for C4 at a concrete series where the oracle reports
p-value 1/100, hence a Stationary verdict. -/
theorem claim_C4_witness :
    ((adf_test testOracles [some 1, some 2, some 3] "A").verdict =
        .isStationary ↔ (1 / 100 : ℚ) < 0.05) ∧
    ((adf_test testOracles [some 1, some 2, some 3] "A").verdict =
        .nonStationary ↔ ¬ (1 / 100 : ℚ) < 0.05) ∧
    (adf_test testOracles [some 1, some 2, some 3] "A").adfStatistic =
      some (-3) ∧
    (adf_test testOracles [some 1, some 2, some 3] "A").pvalue =
      some (1 / 100) ∧
    (adf_test testOracles [some 1, some 2, some 3] "A").critValues =
      some [("5%", -29/10)] :=
  claim_C4 testOracles [some 1, some 2, some 3] "A"
    { stat := -3, pvalue := 1/100, critValues := [("5%", -29/10)] }
    (by norm_num [degenerate, dropna, varNum, listMean]) rfl

/-- Claim C6: on any series where the unit-root test itself raises,
`adf_test` catches the failure and returns the Error verdict carrying the
message, with all numeric fields N/A; nothing propagates to the caller. -/
theorem claim_C6 (o : Oracles) (series : Series) (stock_name : String)
    (msg : String) (hnd : ¬ degenerate (dropna series))
    (h : o.adfuller (dropna series) = .error msg) :
    adf_test o series stock_name =
      { stock := stock_name, adfStatistic := none, pvalue := none,
        critValues := none, verdict := .testError msg } := by
  simp [adf_test, hnd, h]

/-- Witness for C6: an oracle whose unit-root test raises on [1, 2, 3]. -/
theorem claim_C6_witness :
    adf_test failOracles [some 1, some 2, some 3] "A" =
      { stock := "A", adfStatistic := none, pvalue := none,
        critValues := none,
        verdict := .testError "maxlag should be less than the sample size" } :=
  claim_C6 failOracles [some 1, some 2, some 3] "A"
    "maxlag should be less than the sample size"
    (by norm_num [degenerate, dropna, varNum, listMean]) rfl

/-- Claim C7: on a non-degenerate series, a failure of the ARIMA fit or of
the forecasting step is re-raised by `forecast_stock` — it is not swallowed
and no partial forecast is returned. -/
theorem claim_C7 (o : Oracles) (series : Series) (p d q : Nat) (e : String)
    (hnd : ¬ degenerate (dropna series))
    (h : o.arima (dropna series) (p, d, q) = .error e) :
    forecast_stock o series p d q = .error e := by
  simp [forecast_stock, hnd, h]

/-- Witness for C7: an oracle whose ARIMA fit raises on [1, 2, 3]. -/
theorem claim_C7_witness :
    forecast_stock failOracles [some 1, some 2, some 3] 1 0 1 =
      .error "LU decomposition error" :=
  claim_C7 failOracles [some 1, some 2, some 3] 1 0 1 "LU decomposition error"
    (by norm_num [degenerate, dropna, varNum, listMean]) rfl

/-- Claim C5: on a non-degenerate series with in-bound orders for which the
fit converges, `forecast_stock` returns exactly 7 point predictions, ordered
chronologically: position i of the result is the fitted model's prediction
for i + 1 steps past the last observed time step. -/
theorem claim_C5 (o : Oracles) (series : Series) (p d q : Nat)
    (predict : Nat → ℚ) (hp : p ≤ 10) (hq : q ≤ 10) (hd : d ≤ 2)
    (hnd : ¬ degenerate (dropna series))
    (h : o.arima (dropna series) (p, d, q) = .ok predict) :
    forecast_stock o series p d q = .ok ((List.range 7).map predict) ∧
    ((List.range 7).map predict).length = 7 ∧
    (List.range 7).map predict =
      [predict 0, predict 1, predict 2, predict 3, predict 4, predict 5,
       predict 6] := by
  refine ⟨by simp [forecast_stock, hnd, h], by simp, ?_⟩
  simp [List.range_succ]

/-- Witness for C5: the test oracle's fitted model on [1, 2, 3]. -/
theorem claim_C5_witness :
    forecast_stock testOracles [some 1, some 2, some 3] 1 0 1 =
      .ok ((List.range 7).map fun h => (100 : ℚ) + h) ∧
    ((List.range 7).map fun h => (100 : ℚ) + h).length = 7 ∧
    (List.range 7).map (fun h => (100 : ℚ) + h) =
      [100 + 0, 100 + 1, 100 + 2, 100 + 3, 100 + 4, 100 + 5, 100 + 6] :=
  claim_C5 testOracles [some 1, some 2, some 3] 1 0 1
    (fun h => (100 : ℚ) + h) (by norm_num) (by norm_num) (by norm_num)
    (by norm_num [degenerate, dropna, varNum, listMean]) rfl

/-- `firstIdxOver` finds nothing exactly when no element's magnitude is
above the threshold (the defaulting case of the Python `next(..., 1)`). -/
theorem firstIdxOver_eq_none_iff (thr : ℚ) (xs : List ℚ) :
    firstIdxOver thr xs = none ↔ ∀ x ∈ xs, pyabs x ≤ thr := by
  induction xs with
  | nil => simp [firstIdxOver]
  | cons x xs ih =>
    by_cases hx : thr < pyabs x
    · simp only [firstIdxOver, if_pos hx]
      simp only [reduceCtorEq, false_iff]
      intro hall
      exact absurd (hall x (List.mem_cons_self x xs)) (not_le.mpr hx)
    · simp [firstIdxOver, hx, ih, not_lt.mp hx]

/-- What `firstIdxOver thr xs = some i` means: position i is in range, its
element's magnitude is above the threshold, and it is the least such. -/
theorem firstIdxOver_eq_some (thr : ℚ) (xs : List ℚ) (i : Nat)
    (h : firstIdxOver thr xs = some i) :
    i < xs.length ∧ thr < pyabs (xs.getD i 0) ∧
      ∀ j, j < i → pyabs (xs.getD j 0) ≤ thr := by
  induction xs generalizing i with
  | nil => simp [firstIdxOver] at h
  | cons x xs ih =>
    by_cases hx : thr < pyabs x
    · simp only [firstIdxOver, if_pos hx, Option.some.injEq] at h
      subst h
      simpa using hx
    · simp only [firstIdxOver, if_neg hx, Option.map_eq_some'] at h
      obtain ⟨a, ha, rfl⟩ := h
      obtain ⟨h1, h2, h3⟩ := ih a ha
      refine ⟨by simpa using h1, by simpa using h2, ?_⟩
      intro j hj
      cases j with
      | zero => simpa using not_lt.mp hx
      | succ j => simpa using h3 j (by omega)

/-- Converse of `firstIdxOver_eq_some`: the least in-range position whose
element's magnitude is above the threshold is found. -/
theorem firstIdxOver_eq_some_of (thr : ℚ) (xs : List ℚ) (i : Nat)
    (hlen : i < xs.length) (hi : thr < pyabs (xs.getD i 0))
    (hmin : ∀ j, j < i → pyabs (xs.getD j 0) ≤ thr) :
    firstIdxOver thr xs = some i := by
  induction xs generalizing i with
  | nil => simp at hlen
  | cons x xs ih =>
    cases i with
    | zero =>
      simp only [List.getD_cons_zero] at hi
      simp [firstIdxOver, hi]
    | succ i =>
      have hx : ¬ thr < pyabs x :=
        not_lt.mpr (by simpa using hmin 0 (Nat.succ_pos i))
      simp only [firstIdxOver, if_neg hx, Option.map_eq_some']
      refine ⟨i, ih i (by simpa using hlen) (by simpa using hi) ?_, rfl⟩
      intro j hj
      simpa using hmin (j + 1) (by omega)

/-- An `adfuller` failure at any condition check of the differencing loop
propagates out of the loop. -/
theorem diffLoop_error (adf : List ℚ → Except String AdfResult)
    (fuel : Nat) (temp : List ℚ) (d : Nat) (msg : String)
    (h : adf temp = .error msg) :
    diffLoop adf (fuel + 1) temp d = .error msg := by
  simp [diffLoop, h]

/-- The differencing loop exits with the current series and counter as soon
as its condition `pvalue > 0.05 and diff_count < 2` fails. -/
theorem diffLoop_exit (adf : List ℚ → Except String AdfResult)
    (fuel : Nat) (temp : List ℚ) (d : Nat) (r : AdfResult)
    (h : adf temp = .ok r) (hc : ¬ (0.05 < r.pvalue ∧ d < 2)) :
    diffLoop adf (fuel + 1) temp d = .ok (temp, d) := by
  simp [diffLoop, h, hc]

/-- Soundness of the bounded differencing loop: from a counter ≤ 2 with
enough fuel, a normal exit carries a counter still ≤ 2, a series that is the
iterated first-order difference of the input, and a final successful
unit-root test that either reported a p-value ≤ 0.05 or was overridden by
the attempt cap of 2. -/
theorem diffLoop_sound (adf : List ℚ → Except String AdfResult) :
    ∀ (fuel d : Nat) (temp t : List ℚ) (d' : Nat), d ≤ 2 → 3 ≤ fuel + d →
      diffLoop adf fuel temp d = .ok (t, d') →
      d ≤ d' ∧ d' ≤ 2 ∧ t = diffl^[d' - d] temp ∧
        ∃ r, adf t = .ok r ∧ (r.pvalue ≤ 0.05 ∨ d' = 2) := by
  intro fuel
  induction fuel with
  | zero => intro d temp t d' hd hf _; omega
  | succ fuel ih =>
    intro d temp t d' hd hf h
    cases hadf : adf temp with
    | error e => simp [diffLoop, hadf] at h
    | ok r =>
      by_cases hc : (0.05 : ℚ) < r.pvalue ∧ d < 2
      · simp only [diffLoop, hadf, if_pos hc] at h
        obtain ⟨h1, h2, h3, h4⟩ := ih (d + 1) (diffl temp) t d' (by omega)
          (by omega) h
        refine ⟨by omega, h2, ?_, h4⟩
        have he : d' - d = (d' - (d + 1)) + 1 := by omega
        rw [he, Function.iterate_succ_apply, ← h3]
      · simp only [diffLoop, hadf, if_neg hc, Except.ok.injEq, Prod.mk.injEq] at h
        obtain ⟨rfl, rfl⟩ := h
        refine ⟨le_refl d, hd, by simp, r, hadf, ?_⟩
        rcases not_and_or.mp hc with hp | hdlt
        · exact Or.inl (not_lt.mp hp)
        · exact Or.inr (by omega)

/-- Characterization of a successful `get_arima_params` run on a
non-degenerate series, given the loop result and the two correlation
sequences: p and q come from the first position of magnitude above 0.2 in
the lag-0-stripped PACF and ACF sequences (default 1), capped at 10; d is
the loop's counter; the fourth component is the rendered PNG of the final
series' diagnostics. -/
theorem get_arima_params_ok_char (o : Oracles) (series : Series)
    (t : List ℚ) (dc : Nat) (pa ac : List ℚ)
    (hnd : ¬ degenerate (dropna series))
    (hloop : diffLoop o.adfuller 3 (dropna series) 0 = .ok (t, dc))
    (hpa : o.pacf t 20 = .ok pa) (hac : o.acf t 20 = .ok ac) :
    get_arima_params o series =
      .ok { p := min ((firstIdxOver 0.2 (pa.drop 1)).getD 1) 10,
            d := dc,
            q := min ((firstIdxOver 0.2 (ac.drop 1)).getD 1) 10,
            plot := .image (o.renderAcfPacf t) } := by
  simp [get_arima_params, hnd, hloop, hpa, hac]

/-- Claim C3: on a non-degenerate series, the differencing loop starts from
the cleaned series, applies first-order differencing (dropping the leading
missing value) while the unit-root p-value exceeds 0.05 and fewer than 2
differences have been applied, and stops when the series tests stationary
(p-value ≤ 0.05) or the cap of 2 is reached; the d in the proposal never
exceeds 2 and the final series is the d-fold difference of the cleaned one. -/
theorem claim_C3 (o : Oracles) (series : Series) (pr : ArimaParams)
    (hnd : ¬ degenerate (dropna series))
    (h : get_arima_params o series = .ok pr) :
    pr.d ≤ 2 ∧
    ∃ t, diffLoop o.adfuller 3 (dropna series) 0 = .ok (t, pr.d) ∧
      t = diffl^[pr.d] (dropna series) ∧
      ∃ r, o.adfuller t = .ok r ∧ (r.pvalue ≤ 0.05 ∨ pr.d = 2) := by
  cases hloop : diffLoop o.adfuller 3 (dropna series) 0 with
  | error e => simp [get_arima_params, hnd, hloop] at h
  | ok td =>
    obtain ⟨t, dc⟩ := td
    cases hpa : o.pacf t 20 with
    | error e => simp [get_arima_params, hnd, hloop, hpa] at h
    | ok pa =>
      cases hac : o.acf t 20 with
      | error e => simp [get_arima_params, hnd, hloop, hpa, hac] at h
      | ok ac =>
        have hchar := get_arima_params_ok_char o series t dc pa ac hnd hloop
          hpa hac
        rw [h] at hchar
        obtain rfl : pr = _ := Except.ok.inj hchar
        obtain ⟨-, hd2, hiter, hr⟩ := diffLoop_sound o.adfuller 3 0
          (dropna series) t dc (by omega) (by omega) hloop
        simp only [Nat.sub_zero] at hiter
        exact ⟨hd2, t, rfl, hiter, hr⟩

/-- Witness for C3 at [1, 2, 3] under the test oracles: the loop exits at
once (p-value 1/100 ≤ 0.05), so d = 0 and the final series is the cleaned
input itself. -/
theorem claim_C3_witness :
    (0 : Nat) ≤ 2 ∧
    ∃ t, diffLoop testOracles.adfuller 3 (dropna [some 1, some 2, some 3]) 0 =
        .ok (t, 0) ∧
      t = diffl^[0] (dropna [some 1, some 2, some 3]) ∧
      ∃ r, testOracles.adfuller t = .ok r ∧
        (r.pvalue ≤ 0.05 ∨ (0 : Nat) = 2) :=
  claim_C3 testOracles [some 1, some 2, some 3]
    { p := min ((firstIdxOver 0.2 (corrSeq21.drop 1)).getD 1) 10, d := 0,
      q := min ((firstIdxOver 0.2 (corrSeq21.drop 1)).getD 1) 10,
      plot := .image [137, 80, 78, 71] }
    (by norm_num [degenerate, dropna, varNum, listMean])
    (get_arima_params_ok_char testOracles [some 1, some 2, some 3] [1, 2, 3] 0
      corrSeq21 corrSeq21
      (by norm_num [degenerate, dropna, varNum, listMean])
      (diffLoop_exit testOracles.adfuller 2 [1, 2, 3] 0
        { stat := -3, pvalue := 1/100, critValues := [("5%", -29/10)] } rfl
        (by norm_num))
      rfl rfl)

/-- Claim C10: unlike `adf_test`, `get_arima_params` does not catch failures
of the unit-root test: on a non-degenerate series on which `adfuller`
raises, the exception propagates to the caller and no proposal is
returned. -/
theorem claim_C10 (o : Oracles) (series : Series) (msg : String)
    (hnd : ¬ degenerate (dropna series))
    (h : o.adfuller (dropna series) = .error msg) :
    get_arima_params o series = .error msg := by
  have hl : diffLoop o.adfuller 3 (dropna series) 0 = .error msg :=
    diffLoop_error o.adfuller 2 (dropna series) 0 msg h
  simp [get_arima_params, hnd, hl]

/-- Witness for C10: [1, 2, 3] is non-degenerate (length ≥ 2, nonzero
variance) yet short enough that adfuller's internal lag selection fails, as
modelled by `failOracles`; the exception surfaces from
`get_arima_params`. -/
theorem claim_C10_witness :
    get_arima_params failOracles [some 1, some 2, some 3] =
      .error "maxlag should be less than the sample size" :=
  claim_C10 failOracles [some 1, some 2, some 3]
    "maxlag should be less than the sample size"
    (by norm_num [degenerate, dropna, varNum, listMean]) rfl

/-- Claim C2: on a non-degenerate series, p is the first position (0-based,
lag 1 = position 0) in the lag-0-stripped PACF sequence whose magnitude
exceeds 0.2, defaulting to 1 when none does; q follows the identical rule on
the ACF sequence; both are then capped by min(·, 10), so the returned p and
q always lie in [0, 10]. -/
theorem claim_C2 (o : Oracles) (series : Series) (pr : ArimaParams)
    (t : List ℚ) (dc : Nat) (pa ac : List ℚ)
    (hnd : ¬ degenerate (dropna series))
    (hloop : diffLoop o.adfuller 3 (dropna series) 0 = .ok (t, dc))
    (hpa : o.pacf t 20 = .ok pa) (hac : o.acf t 20 = .ok ac)
    (h : get_arima_params o series = .ok pr) :
    pr.p = min ((firstIdxOver 0.2 (pa.drop 1)).getD 1) 10 ∧
    pr.q = min ((firstIdxOver 0.2 (ac.drop 1)).getD 1) 10 ∧
    pr.p ≤ 10 ∧ pr.q ≤ 10 ∧
    ((∀ x ∈ pa.drop 1, pyabs x ≤ 0.2) → pr.p = 1) ∧
    (∀ i, i < (pa.drop 1).length → 0.2 < pyabs ((pa.drop 1).getD i 0) →
      (∀ j, j < i → pyabs ((pa.drop 1).getD j 0) ≤ 0.2) → pr.p = min i 10) ∧
    ((∀ x ∈ ac.drop 1, pyabs x ≤ 0.2) → pr.q = 1) ∧
    (∀ i, i < (ac.drop 1).length → 0.2 < pyabs ((ac.drop 1).getD i 0) →
      (∀ j, j < i → pyabs ((ac.drop 1).getD j 0) ≤ 0.2) → pr.q = min i 10) := by
  have hchar := get_arima_params_ok_char o series t dc pa ac hnd hloop hpa hac
  rw [h] at hchar
  obtain rfl : pr = _ := Except.ok.inj hchar
  refine ⟨rfl, rfl, Nat.min_le_right _ _, Nat.min_le_right _ _, ?_, ?_, ?_, ?_⟩
  · intro hall
    show min ((firstIdxOver 0.2 (pa.drop 1)).getD 1) 10 = 1
    rw [(firstIdxOver_eq_none_iff _ _).mpr hall]
    decide
  · intro i hlen hi hmin
    show min ((firstIdxOver 0.2 (pa.drop 1)).getD 1) 10 = min i 10
    rw [firstIdxOver_eq_some_of 0.2 (pa.drop 1) i hlen hi hmin]
    simp
  · intro hall
    show min ((firstIdxOver 0.2 (ac.drop 1)).getD 1) 10 = 1
    rw [(firstIdxOver_eq_none_iff _ _).mpr hall]
    decide
  · intro i hlen hi hmin
    show min ((firstIdxOver 0.2 (ac.drop 1)).getD 1) 10 = min i 10
    rw [firstIdxOver_eq_some_of 0.2 (ac.drop 1) i hlen hi hmin]
    simp

/-- Witness for C2 at [1, 2, 3] under the test oracles. -/
theorem claim_C2_witness :
    min ((firstIdxOver 0.2 (corrSeq21.drop 1)).getD 1) 10 =
      min ((firstIdxOver 0.2 (corrSeq21.drop 1)).getD 1) 10 ∧
    min ((firstIdxOver 0.2 (corrSeq21.drop 1)).getD 1) 10 =
      min ((firstIdxOver 0.2 (corrSeq21.drop 1)).getD 1) 10 ∧
    min ((firstIdxOver 0.2 (corrSeq21.drop 1)).getD 1) 10 ≤ 10 ∧
    min ((firstIdxOver 0.2 (corrSeq21.drop 1)).getD 1) 10 ≤ 10 ∧
    ((∀ x ∈ corrSeq21.drop 1, pyabs x ≤ 0.2) →
      min ((firstIdxOver 0.2 (corrSeq21.drop 1)).getD 1) 10 = 1) ∧
    (∀ i, i < (corrSeq21.drop 1).length →
      0.2 < pyabs ((corrSeq21.drop 1).getD i 0) →
      (∀ j, j < i → pyabs ((corrSeq21.drop 1).getD j 0) ≤ 0.2) →
      min ((firstIdxOver 0.2 (corrSeq21.drop 1)).getD 1) 10 = min i 10) ∧
    ((∀ x ∈ corrSeq21.drop 1, pyabs x ≤ 0.2) →
      min ((firstIdxOver 0.2 (corrSeq21.drop 1)).getD 1) 10 = 1) ∧
    (∀ i, i < (corrSeq21.drop 1).length →
      0.2 < pyabs ((corrSeq21.drop 1).getD i 0) →
      (∀ j, j < i → pyabs ((corrSeq21.drop 1).getD j 0) ≤ 0.2) →
      min ((firstIdxOver 0.2 (corrSeq21.drop 1)).getD 1) 10 = min i 10) :=
  claim_C2 testOracles [some 1, some 2, some 3]
    { p := min ((firstIdxOver 0.2 (corrSeq21.drop 1)).getD 1) 10, d := 0,
      q := min ((firstIdxOver 0.2 (corrSeq21.drop 1)).getD 1) 10,
      plot := .image [137, 80, 78, 71] }
    [1, 2, 3] 0 corrSeq21 corrSeq21
    (by norm_num [degenerate, dropna, varNum, listMean])
    (diffLoop_exit testOracles.adfuller 2 [1, 2, 3] 0
      { stat := -3, pvalue := 1/100, critValues := [("5%", -29/10)] } rfl
      (by norm_num))
    rfl rfl
    (get_arima_params_ok_char testOracles [some 1, some 2, some 3] [1, 2, 3] 0
      corrSeq21 corrSeq21
      (by norm_num [degenerate, dropna, varNum, listMean])
      (diffLoop_exit testOracles.adfuller 2 [1, 2, 3] 0
        { stat := -3, pvalue := 1/100, critValues := [("5%", -29/10)] } rfl
        (by norm_num))
      rfl rfl)

/-- Counterexample to claim C8: at the non-degenerate input [1, 2, 3] the
proposal returned by `get_arima_params` does not carry the diagnostic curves
as numeric sequences — its fourth component is a rendered PNG buffer, so no
`Curves.data` value is returned at all. -/
theorem claim_C8_counterexample :
    ¬ degenerate (dropna [some 1, some 2, some 3]) ∧
    ¬ ∃ pr : ArimaParams,
        get_arima_params testOracles [some 1, some 2, some 3] = .ok pr ∧
        ∃ acfSeq pacfSeq : List ℚ, pr.plot = Curves.data acfSeq pacfSeq := by
  refine ⟨by norm_num [degenerate, dropna, varNum, listMean], ?_⟩
  have hchar := get_arima_params_ok_char testOracles [some 1, some 2, some 3]
    [1, 2, 3] 0 corrSeq21 corrSeq21
    (by norm_num [degenerate, dropna, varNum, listMean])
    (diffLoop_exit testOracles.adfuller 2 [1, 2, 3] 0
      { stat := -3, pvalue := 1/100, critValues := [("5%", -29/10)] } rfl
      (by norm_num))
    rfl rfl
  rintro ⟨pr, hpr, a, b, hplot⟩
  rw [hchar] at hpr
  obtain rfl : _ = pr := Except.ok.inj hpr
  simp at hplot

/-- Claim C8 as amended: on a non-degenerate series the proposal carries p,
d and q together with a rendered PNG image of the ACF/PACF diagnostics of
the final (possibly differenced) series — not the numeric sequences; the
lag-0-stripped PACF and ACF sequences are computed internally and determine
p and q, but only the image is returned. -/
theorem claim_C8_amended (o : Oracles) (series : Series)
    (t : List ℚ) (dc : Nat) (pa ac : List ℚ)
    (hnd : ¬ degenerate (dropna series))
    (hloop : diffLoop o.adfuller 3 (dropna series) 0 = .ok (t, dc))
    (hpa : o.pacf t 20 = .ok pa) (hac : o.acf t 20 = .ok ac) :
    get_arima_params o series =
      .ok { p := min ((firstIdxOver 0.2 (pa.drop 1)).getD 1) 10,
            d := dc,
            q := min ((firstIdxOver 0.2 (ac.drop 1)).getD 1) 10,
            plot := .image (o.renderAcfPacf t) } ∧
    ∀ acfSeq pacfSeq : List ℚ,
      Curves.image (o.renderAcfPacf t) ≠ Curves.data acfSeq pacfSeq :=
  ⟨get_arima_params_ok_char o series t dc pa ac hnd hloop hpa hac,
   fun _ _ h => Curves.noConfusion h⟩

/-- Witness for the amended C8 at [1, 2, 3] under the test oracles. -/
theorem claim_C8_amended_witness :
    get_arima_params testOracles [some 1, some 2, some 3] =
      .ok { p := min ((firstIdxOver 0.2 (corrSeq21.drop 1)).getD 1) 10,
            d := 0,
            q := min ((firstIdxOver 0.2 (corrSeq21.drop 1)).getD 1) 10,
            plot := .image [137, 80, 78, 71] } ∧
    ∀ acfSeq pacfSeq : List ℚ,
      Curves.image [137, 80, 78, 71] ≠ Curves.data acfSeq pacfSeq :=
  claim_C8_amended testOracles [some 1, some 2, some 3] [1, 2, 3] 0
    corrSeq21 corrSeq21
    (by norm_num [degenerate, dropna, varNum, listMean])
    (diffLoop_exit testOracles.adfuller 2 [1, 2, 3] 0
      { stat := -3, pvalue := 1/100, critValues := [("5%", -29/10)] } rfl
      (by norm_num))
    rfl rfl
